import Mathlib

/-!
Shallow embedding of `src/server.py` (robot-coder/converse-hub), a minimal
FastAPI chat service: a `/chat/` endpoint that accumulates per-user
conversation history in a module-level dict and forwards the newline-joined
transcript to an external model endpoint, and an `/uploadfile/` endpoint that
writes uploaded bytes to a local `uploads` directory.

Modelling decisions:
* The module-level dict `conversations` is threaded explicitly as an
  association list `Conversations` (Python dicts preserve insertion order;
  assignment to an existing key keeps its position).
* The external network is an oracle `Backend : endpoint → payload prompt →
  TransportOutcome`; each handler additionally returns the list of
  `(endpoint, prompt)` POST requests it issued, so that "no request was sent"
  is observable.
* Python list aliasing matters on the failure path of `chat_endpoint`:
  `conversations.get(user_id, [])` returns the stored list object itself when
  the key exists, so `history.append({"role": "user", ...})` mutates the
  store in place; for a missing key the fresh list is only assigned into the
  dict after the backend call succeeds.  The embedding reproduces this by
  case-splitting on key presence in the error branch.
* Exceptions become `Except`; `HTTPException(status_code=500, detail=d)`
  becomes `Except.error d`.
-/

deriving instance DecidableEq for Except

namespace ConverseHub

/-- A single-quote character, used to reproduce the exact Python error text
`Model 'x' not supported.` -/
def squote : String := String.mk [Char.ofNat 39]

/-- One entry of a conversation history: the Python dict
`{"role": ..., "content": ...}`. -/
structure Entry where
  role : String
  content : String
deriving DecidableEq, Repr

/-- The module-level `conversations` dict: user id → history. -/
abbrev Conversations := List (String × List Entry)

/-- Dict lookup (`d.get(k)` / `d[k]`): first binding of the key. -/
def lookupStore {α : Type} : List (String × α) → String → Option α
  | [], _ => none
  | (k, v) :: rest, key => if k = key then some v else lookupStore rest key

/-- Dict assignment `d[k] = v`: replaces the binding in place if the key is
present (Python dicts keep the original position), otherwise appends. -/
def insertStore {α : Type} : List (String × α) → String → α → List (String × α)
  | [], key, v => [(key, v)]
  | (k, w) :: rest, key, v =>
      if k = key then (key, v) :: rest else (k, w) :: insertStore rest key v

/-- The `MODEL_ENDPOINTS` configuration dict from `server.py`. -/
def MODEL_ENDPOINTS : List (String × String) :=
  [("model_a", "https://api.modela.com/v1/generate"),
   ("model_b", "https://api.modelb.com/v1/generate")]

/-- The pydantic request model `Message` (after parsing, so the
`model_choice` default `"model_a"` has been applied). -/
structure Message where
  user_id : String
  message : String
  theme : Option String := none
  model_choice : String := "model_a"
deriving DecidableEq, Repr

/-- What the network does for one POST: either an HTTP response (with its
status, the detail string `raise_for_status` would put in its error, and the
optional `text` field of the JSON body) or a transport-level failure. -/
inductive TransportOutcome where
  | response (statusOk : Bool) (statusDetail : String) (text : Option String)
  | transportFailure (detail : String)
deriving DecidableEq, Repr

/-- Oracle for the external network: endpoint URL → prompt payload → outcome. -/
abbrev Backend := String → String → TransportOutcome

/-- The two `RuntimeError` branches of `generate_response`:
`except httpx.HTTPError` (communication) and `except Exception` (generation),
each carrying the inner detail `str(e)`. -/
inductive GenError where
  | communicationError (detail : String)
  | generationError (detail : String)
deriving DecidableEq, Repr

/-- `str(e)` of the raised `RuntimeError`, as used for the HTTP 500 detail. -/
def GenError.str : GenError → String
  | .communicationError d => "Error communicating with model API: " ++ d
  | .generationError d => "Error generating response: " ++ d

/-- Result of `generate_response` together with the POST requests it issued. -/
structure GenResult where
  result : Except GenError String
  requests : List (String × String)
deriving Repr

/-- Embedding of `generate_response(prompt, model_name)` (`server.py` lines
58-77): registry lookup (`if not endpoint` is Python-falsy, so an empty URL
also fails), one POST, `raise_for_status`, `data.get("text", "")`. -/
def generate_response (backend : Backend) (prompt : String) (model_name : String) : GenResult :=
  match lookupStore MODEL_ENDPOINTS model_name with
  | none =>
      { result := Except.error (GenError.generationError
          ("Model " ++ squote ++ model_name ++ squote ++ " not supported.")),
        requests := [] }
  | some endpoint =>
      if endpoint = "" then
        { result := Except.error (GenError.generationError
            ("Model " ++ squote ++ model_name ++ squote ++ " not supported.")),
          requests := [] }
      else
        match backend endpoint prompt with
        | .transportFailure d =>
            { result := Except.error (GenError.communicationError d),
              requests := [(endpoint, prompt)] }
        | .response ok d text =>
            if ok then
              { result := Except.ok (text.getD ""), requests := [(endpoint, prompt)] }
            else
              { result := Except.error (GenError.communicationError d),
                requests := [(endpoint, prompt)] }

/-- Outcome of one `POST /chat/` request: the HTTP-level response (`Except.ok
reply` for 200, `Except.error detail` for the 500 `HTTPException`), the
conversation store afterwards, and the backend requests issued. -/
structure ChatOutcome where
  response : Except String String
  conversations : Conversations
  requests : List (String × String)
deriving Repr

/-- The prompt built on a chat turn: newline-join of the `content` of every
entry of the (just-extended) history, `server.py` line 45. -/
def promptOf (s : Conversations) (m : Message) : String :=
  String.intercalate "\n"
    ((((lookupStore s m.user_id).getD []) ++
      [({ role := "user", content := m.message } : Entry)]).map Entry.content)

/-- Embedding of `chat_endpoint(msg)` (`server.py` lines 33-56).  On failure
the store reflects Python list aliasing: if the user already had a key, the
in-place `history.append` of the user message has mutated the stored list;
if not, the fresh list was never assigned into the dict. -/
def chat_endpoint (backend : Backend) (conversations : Conversations) (msg : Message) : ChatOutcome :=
  let history1 := (lookupStore conversations msg.user_id).getD [] ++
    [({ role := "user", content := msg.message } : Entry)]
  let prompt := String.intercalate "\n" (history1.map Entry.content)
  let gen := generate_response backend prompt msg.model_choice
  match gen.result with
  | Except.ok response_text =>
      let history2 := history1 ++ [{ role := "assistant", content := response_text }]
      { response := Except.ok response_text,
        conversations := insertStore conversations msg.user_id history2,
        requests := gen.requests }
  | Except.error e =>
      { response := Except.error e.str,
        conversations :=
          match lookupStore conversations msg.user_id with
          | some _ => insertStore conversations msg.user_id history1
          | none => conversations,
        requests := gen.requests }

/-- Run a sequence of `/chat/` turns, threading the conversation store. -/
def runTurns (backend : Backend) (s : Conversations) : List Message → Conversations
  | [] => s
  | m :: ms => runTurns backend (chat_endpoint backend s m).conversations ms

/-- Whether one chat outcome was a 200 (no exception). -/
def isOkTurn (o : ChatOutcome) : Bool :=
  match o.response with
  | Except.ok _ => true
  | Except.error _ => false

/-- Every turn of the sequence succeeds, threading the store. -/
def turnsOk (backend : Backend) : Conversations → List Message → Bool
  | _, [] => true
  | s, m :: ms =>
      isOkTurn (chat_endpoint backend s m) &&
        turnsOk backend (chat_endpoint backend s m).conversations ms

/-- The history produced by successful turns: one user entry then one
assistant entry per turn, in call order. -/
def turnEntries (msgs : List Message) (replies : List String) : List Entry :=
  List.flatten ((msgs.zip replies).map
    (fun p => [{ role := "user", content := p.1.message },
               { role := "assistant", content := p.2 }]))

/-- `os.path.join(a, b)` for the cases that arise: a later absolute component
discards the earlier ones; otherwise a `/` separator is inserted. -/
def os_path_join (a b : String) : String :=
  if b.startsWith "/" then b
  else if a.endsWith "/" then a ++ b
  else a ++ "/" ++ b

/-- The pydantic response model `FileUploadResponse`. -/
structure FileUploadResponse where
  filename : String
  message : String
deriving DecidableEq, Repr

/-- Whole-process state: the `conversations` dict and the local filesystem
(path → bytes). -/
structure ServerState where
  conversations : Conversations
  files : List (String × List Nat)
deriving Repr

/-- Outcome of one `POST /uploadfile/` request. -/
structure UploadOutcome where
  state : ServerState
  response : FileUploadResponse
  requests : List (String × String)
deriving Repr

/-- Embedding of `upload_file(file)` (`server.py` lines 79-92): writes the
uploaded bytes at `os.path.join("uploads", file.filename)` (mode `"wb"`
truncates, so an existing file is overwritten) and returns the confirmation.
The handler issues no backend request and never touches `conversations`. -/
def upload_file (st : ServerState) (filename : String) (content : List Nat) : UploadOutcome :=
  let save_path := os_path_join "uploads" filename
  { state := { st with files := insertStore st.files save_path content },
    response := { filename := filename, message := "File uploaded successfully." },
    requests := [] }

/-- A backend whose every response is HTTP 200 with JSON `{"text": "ok"}`. -/
def okBackend : Backend := fun _ _ => TransportOutcome.response true "" (some "ok")

/-- A backend that always fails at the transport level. -/
def downBackend : Backend := fun _ _ => TransportOutcome.transportFailure "connection refused"

/-- A backend whose every response has a non-success HTTP status. -/
def badStatusBackend : Backend :=
  fun _ _ => TransportOutcome.response false "503 Service Unavailable" none

/-- A backend whose every response is HTTP 200 with JSON `{}`: no `text`
field. -/
def noTextBackend : Backend := fun _ _ => TransportOutcome.response true "" none

/-- The detail string of a failing transport outcome (`none` when the HTTP
status is a success): the condition under which `raise_for_status` or the
POST itself raises `httpx.HTTPError`. -/
def backendFails (o : TransportOutcome) : Option String :=
  match o with
  | .response ok d _ => if ok then none else some d
  | .transportFailure d => some d

/-! ## Store lemmas -/

/-- Looking up the key just assigned returns the assigned value. -/
theorem lookupStore_insertStore_self {α : Type} (s : List (String × α)) (k : String) (v : α) :
    lookupStore (insertStore s k v) k = some v := by
  induction s with
  | nil => simp [insertStore, lookupStore]
  | cons hd tl ih =>
      obtain ⟨a, b⟩ := hd
      by_cases h : a = k
      · simp [insertStore, lookupStore, h]
      · simp [insertStore, lookupStore, h, ih]

/-- Both registry endpoints are nonempty URLs, so a successful lookup never
hits the Python-falsy `if not endpoint` branch. -/
theorem registry_endpoint_nonempty {m ep : String}
    (h : lookupStore MODEL_ENDPOINTS m = some ep) : ¬ ep = "" := by
  simp only [ MODEL_ENDPOINTS, lookupStore] at h
  split_ifs at h <;> simp only [Option.some.injEq] at h <;> subst h <;> decide

/-! ## Unfolding lemmas for `generate_response` and `chat_endpoint` -/

/-- `generate_response` on an unregistered model: no request, `ValueError`
wrapped into the generic `RuntimeError`. -/
theorem generate_response_unsupported (backend : Backend) (p mc : String)
    (habs : lookupStore MODEL_ENDPOINTS mc = none) :
    generate_response backend p mc =
      ⟨Except.error (GenError.generationError
        ("Model " ++ squote ++ mc ++ squote ++ " not supported.")), []⟩ := by
  simp [generate_response, habs]

/-- `generate_response` when the POST itself fails at the transport level. -/
theorem generate_response_transport_failure (backend : Backend) (p mc ep d : String)
    (hep : lookupStore MODEL_ENDPOINTS mc = some ep)
    (hb : backend ep p = TransportOutcome.transportFailure d) :
    generate_response backend p mc =
      ⟨Except.error (GenError.communicationError d), [(ep, p)]⟩ := by
  have hne := registry_endpoint_nonempty hep
  simp [generate_response, hep, hne, hb]

/-- `generate_response` when the response status is a non-success. -/
theorem generate_response_bad_status (backend : Backend) (p mc ep d : String)
    (text : Option String)
    (hep : lookupStore MODEL_ENDPOINTS mc = some ep)
    (hb : backend ep p = TransportOutcome.response false d text) :
    generate_response backend p mc =
      ⟨Except.error (GenError.communicationError d), [(ep, p)]⟩ := by
  have hne := registry_endpoint_nonempty hep
  simp [generate_response, hep, hne, hb]

/-- `generate_response` on a successful response: `data.get("text", "")`. -/
theorem generate_response_success (backend : Backend) (p mc ep d : String)
    (text : Option String)
    (hep : lookupStore MODEL_ENDPOINTS mc = some ep)
    (hb : backend ep p = TransportOutcome.response true d text) :
    generate_response backend p mc = ⟨Except.ok (text.getD ""), [(ep, p)]⟩ := by
  have hne := registry_endpoint_nonempty hep
  simp [generate_response, hep, hne, hb]

/-- Case-split form of `chat_endpoint`, phrased via `promptOf`. -/
theorem chat_endpoint_cases (backend : Backend) (s : Conversations) (m : Message) :
    chat_endpoint backend s m =
      match (generate_response backend (promptOf s m) m.model_choice).result with
      | Except.ok t =>
          { response := Except.ok t,
            conversations := insertStore s m.user_id ((lookupStore s m.user_id).getD [] ++
              [({ role := "user", content := m.message } : Entry),
               ({ role := "assistant", content := t } : Entry)]),
            requests := (generate_response backend (promptOf s m) m.model_choice).requests }
      | Except.error e =>
          { response := Except.error e.str,
            conversations :=
              match lookupStore s m.user_id with
              | some _ => insertStore s m.user_id ((lookupStore s m.user_id).getD [] ++
                  [({ role := "user", content := m.message } : Entry)])
              | none => s,
            requests := (generate_response backend (promptOf s m) m.model_choice).requests } := by
  cases hg : (generate_response backend (promptOf s m) m.model_choice).result with
  | ok t =>
      have hg2 := hg
      simp only [promptOf] at hg2
      simp only [chat_endpoint, promptOf]
      rw [hg2]
      simp
  | error e =>
      have hg2 := hg
      simp only [promptOf] at hg2
      simp only [chat_endpoint, promptOf]
      rw [hg2]

/-- The backend requests of a chat turn are exactly those of its
`generate_response` call. -/
theorem chat_requests_eq (backend : Backend) (s : Conversations) (m : Message) :
    (chat_endpoint backend s m).requests =
      (generate_response backend (promptOf s m) m.model_choice).requests := by
  rw [chat_endpoint_cases]
  cases (generate_response backend (promptOf s m) m.model_choice).result <;> rfl

/-- On a successful turn the store maps the user to the old history plus the
user entry and the assistant entry, mirroring `server.py` lines 42, 51-52. -/
theorem chat_success_store (backend : Backend) (s : Conversations) (m : Message) (r : String)
    (h : (chat_endpoint backend s m).response = Except.ok r) :
    (chat_endpoint backend s m).conversations =
      insertStore s m.user_id ((lookupStore s m.user_id).getD [] ++
        [({ role := "user", content := m.message } : Entry),
         ({ role := "assistant", content := r } : Entry)]) := by
  rw [chat_endpoint_cases] at h ⊢
  cases hg : (generate_response backend (promptOf s m) m.model_choice).result with
  | ok t => rw [hg] at h; cases h; rfl
  | error e => rw [hg] at h; cases h

/-- Every request a chat turn issues carries the full-transcript prompt. -/
theorem generate_requests_prompt (backend : Backend) (p mc ep q : String)
    (h : (ep, q) ∈ (generate_response backend p mc).requests) : q = p := by
  cases hl : lookupStore MODEL_ENDPOINTS mc with
  | none => rw [generate_response_unsupported backend p mc hl] at h; simp at h
  | some e0 =>
      cases hb : backend e0 p with
      | transportFailure d =>
          rw [generate_response_transport_failure backend p mc e0 d hl hb] at h
          simp at h
          exact h.2
      | response ok d text =>
          cases ok
          · rw [generate_response_bad_status backend p mc e0 d text hl hb] at h
            simp at h
            exact h.2
          · rw [generate_response_success backend p mc e0 d text hl hb] at h
            simp at h
            exact h.2

/-- A turn that reports success returned some reply. -/
theorem isOkTurn_exists_reply (o : ChatOutcome) (h : isOkTurn o = true) :
    ∃ r, o.response = Except.ok r := by
  cases hr : o.response with
  | ok r => exact ⟨r, rfl⟩
  | error e => simp [isOkTurn, hr] at h

/-- Unfolding of `turnEntries` on a cons. -/
theorem turnEntries_cons (m : Message) (ms : List Message) (r : String) (rs : List String) :
    turnEntries (m :: ms) (r :: rs) =
      ({ role := "user", content := m.message } : Entry) ::
        ({ role := "assistant", content := r } : Entry) :: turnEntries ms rs := rfl

/-- `turnEntries` has two entries per turn. -/
theorem turnEntries_length (msgs : List Message) (replies : List String)
    (h : replies.length = msgs.length) :
    (turnEntries msgs replies).length = 2 * msgs.length := by
  induction msgs generalizing replies with
  | nil => simp [turnEntries]
  | cons m ms ih =>
      cases replies with
      | nil => cases h
      | cons r rs =>
          simp only [List.length_cons] at h
          simp only [turnEntries_cons, List.length_cons]
          rw [ih rs (by omega)]
          omega

/-- Accumulator form of the history invariant: a run of successful turns for
user `u` extends the stored history by exactly one user entry and one
assistant entry per turn, in call order. -/
theorem runTurns_store_acc (backend : Backend) (u : String) (msgs : List Message) :
    ∀ (s : Conversations) (acc : List Entry),
      (∀ m ∈ msgs, m.user_id = u) →
      turnsOk backend s msgs = true →
      lookupStore s u = some acc →
      ∃ replies : List String, replies.length = msgs.length ∧
        lookupStore (runTurns backend s msgs) u = some (acc ++ turnEntries msgs replies) := by
  induction msgs with
  | nil =>
      intro s acc _ _ hl
      exact ⟨[], rfl, by simpa [runTurns, turnEntries] using hl⟩
  | cons m ms ih =>
      intro s acc huser hok hl
      have hum : m.user_id = u := huser m (List.mem_cons_self m ms)
      simp only [turnsOk, Bool.and_eq_true] at hok
      obtain ⟨hok1, hok2⟩ := hok
      obtain ⟨r, hr⟩ := isOkTurn_exists_reply _ hok1
      have hstore := chat_success_store backend s m r hr
      have hl2 : lookupStore (chat_endpoint backend s m).conversations u =
          some (acc ++ [({ role := "user", content := m.message } : Entry),
                        ({ role := "assistant", content := r } : Entry)]) := by
        rw [hstore, hum, hl]
        simp [lookupStore_insertStore_self]
      obtain ⟨rs, hlen, hfinal⟩ := ih (chat_endpoint backend s m).conversations
        (acc ++ [({ role := "user", content := m.message } : Entry),
                 ({ role := "assistant", content := r } : Entry)])
        (fun mm hmm => huser mm (List.mem_cons_of_mem m hmm)) hok2 hl2
      refine ⟨r :: rs, by simp [hlen], ?_⟩
      simp only [runTurns]
      rw [hfinal]
      simp [turnEntries_cons, List.append_assoc]

/-! ## Claim theorems -/

/-- C3: for a user with no prior entry, after `N` successful chat turns the
stored history has length exactly `2 * N` and consists of one user entry
followed by one assistant entry per turn, in call order. -/
theorem history_after_successful_turns (backend : Backend) (u : String)
    (msgs : List Message) (s : Conversations)
    (huser : ∀ m ∈ msgs, m.user_id = u)
    (hfresh : lookupStore s u = none)
    (hok : turnsOk backend s msgs = true) :
    ∃ replies : List String, replies.length = msgs.length ∧
      (lookupStore (runTurns backend s msgs) u).getD [] = turnEntries msgs replies ∧
      ((lookupStore (runTurns backend s msgs) u).getD []).length = 2 * msgs.length := by
  cases msgs with
  | nil =>
      refine ⟨[], rfl, ?_, ?_⟩
      · simp [runTurns, turnEntries, hfresh]
      · simp [runTurns, hfresh]
  | cons m ms =>
      have hum : m.user_id = u := huser m (List.mem_cons_self m ms)
      simp only [turnsOk, Bool.and_eq_true] at hok
      obtain ⟨hok1, hok2⟩ := hok
      obtain ⟨r, hr⟩ := isOkTurn_exists_reply _ hok1
      have hstore := chat_success_store backend s m r hr
      have hl2 : lookupStore (chat_endpoint backend s m).conversations u =
          some [({ role := "user", content := m.message } : Entry),
                ({ role := "assistant", content := r } : Entry)] := by
        rw [hstore, hum, hfresh]
        simp [lookupStore_insertStore_self]
      obtain ⟨rs, hlen, hfinal⟩ := runTurns_store_acc backend u ms
        (chat_endpoint backend s m).conversations
        [({ role := "user", content := m.message } : Entry),
         ({ role := "assistant", content := r } : Entry)]
        (fun mm hmm => huser mm (List.mem_cons_of_mem m hmm)) hok2 hl2
      have hfull : lookupStore (runTurns backend s (m :: ms)) u =
          some (turnEntries (m :: ms) (r :: rs)) := by
        simp only [runTurns]
        rw [hfinal]
        simp [turnEntries_cons]
      have hlen2 : (r :: rs).length = (m :: ms).length := by simp [hlen]
      refine ⟨r :: rs, hlen2, ?_, ?_⟩
      · rw [hfull]
        rfl
      · rw [hfull]
        simpa using turnEntries_length (m :: ms) (r :: rs) hlen2

/-- C3 witness: two successful turns of `alice` against a backend replying
`ok`; the stored history is user/assistant/user/assistant, length 4. -/
theorem history_after_successful_turns_witness :
    (∀ m ∈ [({ user_id := "alice", message := "hi" } : Message),
            ({ user_id := "alice", message := "there" } : Message)], m.user_id = "alice") ∧
    lookupStore ([] : Conversations) "alice" = none ∧
    turnsOk okBackend []
      [({ user_id := "alice", message := "hi" } : Message),
       ({ user_id := "alice", message := "there" } : Message)] = true ∧
    ∃ replies : List String, replies.length = 2 ∧
      (lookupStore (runTurns okBackend []
        [({ user_id := "alice", message := "hi" } : Message),
         ({ user_id := "alice", message := "there" } : Message)]) "alice").getD [] =
        turnEntries
          [({ user_id := "alice", message := "hi" } : Message),
           ({ user_id := "alice", message := "there" } : Message)] replies ∧
      ((lookupStore (runTurns okBackend []
        [({ user_id := "alice", message := "hi" } : Message),
         ({ user_id := "alice", message := "there" } : Message)]) "alice").getD []).length = 2 * 2 := by
  refine ⟨by decide, by decide, by decide, ?_⟩
  exact history_after_successful_turns okBackend "alice"
    [({ user_id := "alice", message := "hi" } : Message),
     ({ user_id := "alice", message := "there" } : Message)] []
    (by decide) (by decide) (by decide)

/-- C8: upload writes the bytes verbatim at `os.path.join("uploads",
filename)` with the client-supplied name unsanitized, and a second upload
with the same filename overwrites the first (last write wins). -/
theorem upload_verbatim_last_write_wins (st : ServerState) (fn : String) (c1 c2 : List Nat) :
    lookupStore (upload_file st fn c1).state.files (os_path_join "uploads" fn) = some c1 ∧
    lookupStore (upload_file (upload_file st fn c1).state fn c2).state.files
      (os_path_join "uploads" fn) = some c2 :=
  ⟨lookupStore_insertStore_self st.files (os_path_join "uploads" fn) c1,
   lookupStore_insertStore_self (insertStore st.files (os_path_join "uploads" fn) c1)
     (os_path_join "uploads" fn) c2⟩

/-- C9: an upload leaves the conversation store unchanged and issues no
request to any backend endpoint. -/
theorem upload_conversations_frame (st : ServerState) (fn : String) (c : List Nat) :
    (upload_file st fn c).state.conversations = st.conversations ∧
    (upload_file st fn c).requests = [] :=
  ⟨rfl, rfl⟩

/-- C1 counterexample: for a user with no store entry whose first turn fails
(unregistered model `model_z`), the failed turn does NOT leave the user
message in stored history: the store stays empty, so the claim as stated is
false for fresh users. -/
theorem failed_turn_fresh_user_loses_message :
    (chat_endpoint downBackend []
      { user_id := "alice", message := "hi", theme := none, model_choice := "model_z" }).response =
      Except.error ("Error generating response: Model " ++ squote ++ "model_z" ++ squote ++
        " not supported.") ∧
    (chat_endpoint downBackend []
      { user_id := "alice", message := "hi", theme := none, model_choice := "model_z" }).conversations = [] ∧
    lookupStore (chat_endpoint downBackend []
      { user_id := "alice", message := "hi", theme := none,
        model_choice := "model_z" }).conversations "alice" = none := by
  decide

/-- C1 (amended): a failed chat turn is surfaced as an internal-error
response and adds no assistant entry; the user-message append persists in
the stored history provided the user already had a store entry (Python list
aliasing mutates the stored list in place). -/
theorem failed_turn_keeps_user_message (backend : Backend) (s : Conversations) (m : Message)
    (d : String) (hist : List Entry)
    (hfail : (chat_endpoint backend s m).response = Except.error d)
    (hprev : lookupStore s m.user_id = some hist) :
    lookupStore (chat_endpoint backend s m).conversations m.user_id =
      some (hist ++ [({ role := "user", content := m.message } : Entry)]) := by
  cases hg : (generate_response backend (promptOf s m) m.model_choice).result with
  | ok t =>
      rw [chat_endpoint_cases, hg] at hfail
      cases hfail
  | error e =>
      rw [chat_endpoint_cases, hg]
      simp [hprev, lookupStore_insertStore_self]

/-- C1 witness: user `alice` with prior history, failing model `model_z`. -/
theorem failed_turn_keeps_user_message_witness :
    ((chat_endpoint downBackend
        [("alice", [({ role := "user", content := "old" } : Entry),
                    ({ role := "assistant", content := "fine" } : Entry)])]
        { user_id := "alice", message := "hi", theme := none,
          model_choice := "model_z" }).response =
      Except.error ("Error generating response: Model " ++ squote ++ "model_z" ++ squote ++
        " not supported.")) ∧
    lookupStore
      [("alice", [({ role := "user", content := "old" } : Entry),
                  ({ role := "assistant", content := "fine" } : Entry)])] "alice" =
      some [({ role := "user", content := "old" } : Entry),
            ({ role := "assistant", content := "fine" } : Entry)] ∧
    lookupStore (chat_endpoint downBackend
        [("alice", [({ role := "user", content := "old" } : Entry),
                    ({ role := "assistant", content := "fine" } : Entry)])]
        { user_id := "alice", message := "hi", theme := none,
          model_choice := "model_z" }).conversations "alice" =
      some ([({ role := "user", content := "old" } : Entry),
             ({ role := "assistant", content := "fine" } : Entry)] ++
            [({ role := "user", content := "hi" } : Entry)]) := by
  refine ⟨by decide, by decide, ?_⟩
  exact failed_turn_keeps_user_message downBackend
    [("alice", [({ role := "user", content := "old" } : Entry),
                ({ role := "assistant", content := "fine" } : Entry)])]
    { user_id := "alice", message := "hi", theme := none, model_choice := "model_z" }
    ("Error generating response: Model " ++ squote ++ "model_z" ++ squote ++ " not supported.")
    [({ role := "user", content := "old" } : Entry),
     ({ role := "assistant", content := "fine" } : Entry)]
    (by decide) (by decide)

/-- C2: a failed chat turn for a user id with no store entry leaves the
store entirely unchanged: the fresh history list is only assigned into the
dict after the backend call succeeds. -/
theorem failed_turn_fresh_user_store_unchanged (backend : Backend) (s : Conversations)
    (m : Message) (d : String)
    (hfail : (chat_endpoint backend s m).response = Except.error d)
    (hfresh : lookupStore s m.user_id = none) :
    (chat_endpoint backend s m).conversations = s := by
  cases hg : (generate_response backend (promptOf s m) m.model_choice).result with
  | ok t =>
      rw [chat_endpoint_cases, hg] at hfail
      cases hfail
  | error e =>
      rw [chat_endpoint_cases, hg]
      simp [hfresh]

/-- C2 witness: `alice` has no entry (only `bob` does); failing turn leaves
the store exactly as it was. -/
theorem failed_turn_fresh_user_store_unchanged_witness :
    ((chat_endpoint downBackend [("bob", [({ role := "user", content := "yo" } : Entry)])]
        { user_id := "alice", message := "hi", theme := none,
          model_choice := "model_z" }).response =
      Except.error ("Error generating response: Model " ++ squote ++ "model_z" ++ squote ++
        " not supported.")) ∧
    lookupStore [("bob", [({ role := "user", content := "yo" } : Entry)])] "alice" = none ∧
    (chat_endpoint downBackend [("bob", [({ role := "user", content := "yo" } : Entry)])]
        { user_id := "alice", message := "hi", theme := none,
          model_choice := "model_z" }).conversations =
      [("bob", [({ role := "user", content := "yo" } : Entry)])] := by
  refine ⟨by decide, by decide, ?_⟩
  exact failed_turn_fresh_user_store_unchanged downBackend
    [("bob", [({ role := "user", content := "yo" } : Entry)])]
    { user_id := "alice", message := "hi", theme := none, model_choice := "model_z" }
    ("Error generating response: Model " ++ squote ++ "model_z" ++ squote ++ " not supported.")
    (by decide) (by decide)

/-- C4 counterexample: `alice` sends `hi` then `there` against a backend
that replies `ok`; the prompt of the second call is `hi\nok\nthere`, which
differs from `hi\nthere` concatenated with the (newline-joined) prior
content under every reading of that phrase. -/
theorem second_prompt_not_hi_there_prefixed :
    (chat_endpoint okBackend
        (chat_endpoint okBackend [] { user_id := "alice", message := "hi" }).conversations
        { user_id := "alice", message := "there" }).requests =
      [("https://api.modela.com/v1/generate", "hi\nok\nthere")] ∧
    "hi\nok\nthere" ≠ "hi\nthere" ++ "" ∧
    "hi\nok\nthere" ≠ "hi\nthere" ++ "ok" ∧
    "hi\nok\nthere" ≠ "hi\nthere" ++ "\nok" := by
  decide

/-- C4 (amended): every request a chat turn sends to the backend carries as
prompt the newline-join of the `content` of every entry of the user's
history, including the just-appended user message (the full cumulative
transcript; the second `alice` prompt is `hi`, then the first reply, then
`there`, newline-joined). -/
theorem prompt_is_full_transcript (backend : Backend) (s : Conversations) (m : Message)
    (ep p : String)
    (hreq : (ep, p) ∈ (chat_endpoint backend s m).requests) :
    p = promptOf s m := by
  rw [chat_requests_eq] at hreq
  exact generate_requests_prompt backend (promptOf s m) m.model_choice ep p hreq

/-- C4 witness: the second `alice` call, where the prompt is the full
cumulative transcript `hi\nok\nthere`. -/
theorem prompt_is_full_transcript_witness :
    (("https://api.modela.com/v1/generate", "hi\nok\nthere") ∈
      (chat_endpoint okBackend
        (chat_endpoint okBackend [] { user_id := "alice", message := "hi" }).conversations
        { user_id := "alice", message := "there" }).requests) ∧
    "hi\nok\nthere" =
      promptOf (chat_endpoint okBackend [] { user_id := "alice", message := "hi" }).conversations
        { user_id := "alice", message := "there" } := by
  refine ⟨by decide, ?_⟩
  exact prompt_is_full_transcript okBackend
    (chat_endpoint okBackend [] { user_id := "alice", message := "hi" }).conversations
    { user_id := "alice", message := "there" }
    "https://api.modela.com/v1/generate" "hi\nok\nthere" (by decide)

/-- C5: when the backend answers with a success status, the chat reply is
the JSON `text` field, and a JSON body lacking `text` yields the empty
string as a successful (non-error) reply. -/
theorem chat_reply_is_text_field (backend : Backend) (s : Conversations) (m : Message)
    (ep d : String) (txt : Option String)
    (hep : lookupStore MODEL_ENDPOINTS m.model_choice = some ep)
    (hresp : backend ep (promptOf s m) = TransportOutcome.response true d txt) :
    (chat_endpoint backend s m).response = Except.ok (txt.getD "") := by
  have hg := generate_response_success backend (promptOf s m) m.model_choice ep d txt hep hresp
  rw [chat_endpoint_cases, hg]

/-- C5 witness: `{"text": "ok"}` yields reply `ok`; `{}` yields reply `""`
as a successful turn. -/
theorem chat_reply_is_text_field_witness :
    lookupStore MODEL_ENDPOINTS "model_a" = some "https://api.modela.com/v1/generate" ∧
    (chat_endpoint okBackend [] { user_id := "alice", message := "hi" }).response =
      Except.ok "ok" ∧
    (chat_endpoint noTextBackend [] { user_id := "alice", message := "hi" }).response =
      Except.ok "" := by
  refine ⟨by decide, ?_, ?_⟩
  · exact chat_reply_is_text_field okBackend [] { user_id := "alice", message := "hi" }
      "https://api.modela.com/v1/generate" "" (some "ok") (by decide) (by decide)
  · exact chat_reply_is_text_field noTextBackend [] { user_id := "alice", message := "hi" }
      "https://api.modela.com/v1/generate" "" none (by decide) (by decide)

/-- C6: an unregistered model identifier makes `generate_response` fail with
the unsupported-model error before any request is sent, and the chat turn is
surfaced as a failed (500) response. -/
theorem unsupported_model_rejected (backend : Backend) (s : Conversations) (m : Message)
    (habs : lookupStore MODEL_ENDPOINTS m.model_choice = none) :
    (generate_response backend (promptOf s m) m.model_choice).result =
      Except.error (GenError.generationError
        ("Model " ++ squote ++ m.model_choice ++ squote ++ " not supported.")) ∧
    (generate_response backend (promptOf s m) m.model_choice).requests = [] ∧
    (chat_endpoint backend s m).requests = [] ∧
    (chat_endpoint backend s m).response =
      Except.error ("Error generating response: " ++
        ("Model " ++ squote ++ m.model_choice ++ squote ++ " not supported.")) := by
  have hg := generate_response_unsupported backend (promptOf s m) m.model_choice habs
  refine ⟨by rw [hg], by rw [hg], by rw [chat_requests_eq, hg], ?_⟩
  rw [chat_endpoint_cases, hg]
  rfl

/-- C6 witness: `model_z` has no registry entry. -/
theorem unsupported_model_rejected_witness :
    lookupStore MODEL_ENDPOINTS "model_z" = none ∧
    ((generate_response downBackend
        (promptOf [] { user_id := "alice", message := "hi", theme := none, model_choice := "model_z" })
        "model_z").requests = [] ∧
     (chat_endpoint downBackend []
        { user_id := "alice", message := "hi", theme := none, model_choice := "model_z" }).requests = []) := by
  refine ⟨by decide, ?_⟩
  have h := unsupported_model_rejected downBackend []
    { user_id := "alice", message := "hi", theme := none, model_choice := "model_z" }
    (by decide)
  exact ⟨h.2.1, h.2.2.1⟩

/-- C7: a transport-level failure or a non-success status makes
`generate_response` fail with the communication error carrying the
underlying detail, and the chat turn is surfaced as a failed (500) response
whose detail string carries that detail. -/
theorem backend_failure_surfaced (backend : Backend) (s : Conversations) (m : Message)
    (ep d : String)
    (hep : lookupStore MODEL_ENDPOINTS m.model_choice = some ep)
    (hfail : backendFails (backend ep (promptOf s m)) = some d) :
    (generate_response backend (promptOf s m) m.model_choice).result =
      Except.error (GenError.communicationError d) ∧
    (chat_endpoint backend s m).response =
      Except.error ("Error communicating with model API: " ++ d) := by
  cases hb : backend ep (promptOf s m) with
  | transportFailure d0 =>
      rw [hb] at hfail
      simp only [backendFails, Option.some.injEq] at hfail
      subst hfail
      have hg := generate_response_transport_failure backend (promptOf s m)
        m.model_choice ep d0 hep hb
      exact ⟨by rw [hg], by rw [chat_endpoint_cases, hg]; rfl⟩
  | response ok d0 text =>
      cases ok with
      | true =>
          rw [hb] at hfail
          simp [backendFails] at hfail
      | false =>
          rw [hb] at hfail
          have hd : d0 = d := by simpa [backendFails] using hfail
          subst hd
          have hg := generate_response_bad_status backend (promptOf s m)
            m.model_choice ep d0 text hep hb
          exact ⟨by rw [hg], by rw [chat_endpoint_cases, hg]; rfl⟩

/-- C7 witness: a 503 status and a refused connection, both for `model_a`. -/
theorem backend_failure_surfaced_witness :
    lookupStore MODEL_ENDPOINTS "model_a" = some "https://api.modela.com/v1/generate" ∧
    (chat_endpoint badStatusBackend [] { user_id := "alice", message := "hi" }).response =
      Except.error ("Error communicating with model API: " ++ "503 Service Unavailable") ∧
    (chat_endpoint downBackend [] { user_id := "alice", message := "hi" }).response =
      Except.error ("Error communicating with model API: " ++ "connection refused") := by
  refine ⟨by decide, ?_, ?_⟩
  · exact (backend_failure_surfaced badStatusBackend [] { user_id := "alice", message := "hi" }
      "https://api.modela.com/v1/generate" "503 Service Unavailable"
      (by decide) (by decide)).2
  · exact (backend_failure_surfaced downBackend [] { user_id := "alice", message := "hi" }
      "https://api.modela.com/v1/generate" "connection refused"
      (by decide) (by decide)).2

/-- C10: the optional `theme` field is accepted but never read: two chat
requests identical except for `theme` produce the same reply, the same store
update, and the same backend requests (in particular the same prompt). -/
theorem theme_field_never_read (backend : Backend) (s : Conversations)
    (u text : String) (t1 t2 : Option String) (mc : String) :
    chat_endpoint backend s { user_id := u, message := text, theme := t1, model_choice := mc } =
    chat_endpoint backend s { user_id := u, message := text, theme := t2, model_choice := mc } :=
  rfl

end ConverseHub
